import Mathlib

/-!
Verification development for the `bed2seq` tool: a single-pass converter from
BED interval rows to FASTA records, sliced out of a reference genome.

The model below is a shallow embedding of `bed2seq/bed2seq.py`.  Python
strings are represented as `List Char`; the pyfaidx reference index is an
ordered association list from chromosome names to base strings; an uncaught
Python exception is modelled by `Except.error`.
-/

set_option autoImplicit false

namespace Bed2Seq

/-- Python strings are modelled as lists of characters. -/
abbrev Str := List Char

/-- The pyfaidx `Fasta` object is modelled as an ordered association list
from chromosome name to the chromosome's bases, in genome-file order. -/
abbrev ChrDict := List (Str × Str)

/-- The command-line arguments of the tool that the core logic reads
(`argparse` namespace): BED content, genome path, `--append`,
`--remove`, `--nostrand`. -/
structure Args where
  input : Str
  genome : Str
  append : Int
  remove : Bool
  nostrand : Bool
deriving Repr, DecidableEq

/-- The `resp` dictionary built by `compute`. -/
structure Resp where
  is_ok : Bool
  result : List Str
  warning : List Str
  error : Option Str
deriving Repr, DecidableEq

/-- The initial `resp` dictionary (`compute`, lines 86-91). -/
def resp0 : Resp := { is_ok := true, result := [], warning := [], error := none }

/-- Python `str.split(sep)` for a one-character separator: always returns at
least one (possibly empty) field. -/
def splitOnChar (sep : Char) : Str → List Str
  | [] => [[]]
  | c :: cs =>
    match splitOnChar sep cs with
    | [] => [[]]
    | h :: t => if c = sep then [] :: h :: t else (c :: h) :: t

/-- Python `str.splitlines()` for `\n`-separated text: like splitting on
`\n` except that a trailing newline does not yield a trailing empty line. -/
def pySplitlines (s : Str) : List Str :=
  let ps := splitOnChar '\n' s
  if ps.getLast? = some [] then ps.dropLast else ps

/-- Python `row.startswith('#')`. -/
def startsHash : Str → Bool
  | '#' :: _ => true
  | _ => false

/-- Python whitespace, as stripped by `str.rstrip()` and `int()`. -/
def isPyWs (c : Char) : Bool :=
  c == ' ' || c == '\t' || c == '\n' || c == '\r' || c == '\x0b' || c == '\x0c'

/-- Python `str.rstrip()` (no argument: strips trailing whitespace). -/
def pyRstrip (s : Str) : Str := (s.reverse.dropWhile isPyWs).reverse

/-- Python `str.rstrip('\n')`. -/
def pyRstripNl (s : Str) : Str := (s.reverse.dropWhile (fun c => c == '\n')).reverse

/-- Python `str.strip()` (both ends), used by `int()` on its argument. -/
def pyStrip (s : Str) : Str := ((s.dropWhile isPyWs).reverse.dropWhile isPyWs).reverse

/-- Decimal digit accumulation for `int()`: every character must be a digit. -/
def parseDigitsAux : Str → Nat → Option Nat
  | [], acc => some acc
  | c :: cs, acc => if c.isDigit then parseDigitsAux cs (acc * 10 + (c.toNat - 48)) else none

/-- A non-empty all-digit string, as accepted by `int()` after sign removal. -/
def parseDigits : Str → Option Nat
  | [] => none
  | s => parseDigitsAux s 0

/-- Python `int(s)`: strip whitespace, optional sign, decimal digits;
`none` models the `ValueError` raised on anything else. -/
def pyIntChars (s : Str) : Option Int :=
  match pyStrip s with
  | '-' :: rest => (parseDigits rest).map (fun n => -(n : Int))
  | '+' :: rest => (parseDigits rest).map (fun n => (n : Int))
  | t => (parseDigits t).map (fun n => (n : Int))

/-- Clamp one bound of a Python slice `s[a:b]` to an index of a length-`n`
sequence: negative indices count from the end, all bounds are clamped. -/
def pyIdx (n : Nat) (i : Int) : Nat :=
  if i < 0 then ((n : Int) + i).toNat else min i.toNat n

/-- Python slice `s[a:b]` (step 1) on a character list; also models the
slice access `chr_dict[chr][start:end]` on a pyfaidx record. -/
def pySlice (s : Str) (a b : Int) : Str :=
  (s.take (pyIdx s.length b)).drop (pyIdx s.length a)

/-- Base complement of the pyfaidx collaborator (`seq.complement`) on the
standard nucleotide alphabet; other codes are left untouched here. -/
def complement (c : Char) : Char :=
  if c == 'A' then 'T' else if c == 'T' then 'A'
  else if c == 'C' then 'G' else if c == 'G' then 'C'
  else if c == 'a' then 't' else if c == 't' then 'a'
  else if c == 'c' then 'g' else if c == 'g' then 'c'
  else c

/-- pyfaidx `seq.complement.reverse.seq`: the reverse complement. -/
def revComp (s : Str) : Str := (s.map complement).reverse

/-- Chunking used by `textwrap.fill` on whitespace-free text: lines of at
most `w` characters.  The first argument is fuel, instantiated with the
length of the text. -/
def chunksAux (w : Nat) : Nat → Str → List Str
  | _, [] => []
  | 0, s => [s]
  | fuel + 1, s => s.take w :: chunksAux w fuel (s.drop w)

/-- Join lines with newlines (`'\n'.join`). -/
def joinNl : List Str → Str
  | [] => []
  | [x] => x
  | x :: xs => x ++ '\n' :: joinNl xs

/-- Python `textwrap.fill(seq, width=100)` on whitespace-free sequence text:
break into lines of at most 100 characters. -/
def textwrapFill100 (s : Str) : Str := joinNl (chunksAux 100 s.length s)

/-- Membership / lookup in the pyfaidx index (`chr in chr_dict`,
`chr_dict[chr]`): first match in genome-file order. -/
def chrLookup : ChrDict → Str → Option Str
  | [], _ => none
  | (k, v) :: d, c => if k = c then some v else chrLookup d c

/-- Message of the uncaught `ValueError` raised by a failed tuple unpacking
in the `compute` loop (lines 108-113). -/
def unpackErr : Str := "ValueError: not enough values to unpack".data

/-- Message of the uncaught `ValueError` raised by `int()` on a malformed
coordinate field (lines 118-119). -/
def intErr : Str := "ValueError: invalid literal for int".data

/-- Message of the uncaught `KeyError` raised by the pyfaidx dictionary
lookup `chr_dict[chr]` (line 121) for a missing chromosome; it names only
the missing key. -/
def keyErr (c : Str) : Str := "KeyError: ".data ++ c

/-- Message of the uncaught `StopIteration` raised by
`next(iter(chr_dict.keys()))` on an empty index (line 76). -/
def stopIterErr : Str := "StopIteration".data

/-- The non-fatal warning recorded by `_input_ok` (line 69). -/
def warnMsg : Str := "strand column missing: strands cannot be evaluated.".data

/-- The column-count error recorded by `_input_ok` (line 64); `i` is the
0-based row index, the message shows the 1-based line number. -/
def colErr (i : Nat) : Str :=
  "not enough columns at line ".data ++ Nat.toDigits 10 (i + 1) ++ " (check your bed file).".data

/-- Fixed prefix of the chromosome-mismatch error of `_input_ok`
(lines 73-77), up to the offending BED name. -/
def mismatchPre : Str :=
  ("chromosomes are not named in the same way in the query and the genome file. " ++
   "Below the first chromosome found: \n     your query: ").data

/-- Middle part of the chromosome-mismatch error, between the offending BED
name and the example genome name. -/
def mismatchMid : Str := "\n     genome: ".data

/-- Tail of the chromosome-mismatch error, holding the genome file path. -/
def mismatchPost (genome : Str) : Str :=
  "\n   Please, correct your request (or modify the file \x27".data ++ genome ++ ".fai\x27).".data

/-- The full chromosome-mismatch error of `_input_ok` (lines 73-77): it
spells out both the offending BED name `c` and the first genome name `k`. -/
def mismatchMsg (c k genome : Str) : Str :=
  mismatchPre ++ c ++ mismatchMid ++ k ++ mismatchPost genome

/-- Message of `ctrl_args`'s `sys.exit` (line 43), colour escape included. -/
def cfgErr : Str := "\x1b[91moption \x27--remove\x27 needs \x27--append\x27 option.".data

/-- The `_tab_length` sniffer (lines 46-53): number of tab-separated fields
of the first non-comment line, 0 when there is none. -/
def tabLength : List Str → Nat
  | [] => 0
  | r :: rs => if startsHash r then tabLength rs else (splitOnChar '\t' r).length

/-- The `_input_ok` validator loop (lines 56-81): skip comment lines, then
check the first data line once.  Returns the updated `resp` and the boolean
result; `Except.error` models the uncaught `StopIteration` of line 76 on an
empty genome index. -/
def inputOkAux (args : Args) (d : ChrDict) : Resp → Nat → List Str → Except Str (Resp × Bool)
  | resp, _, [] => .ok (resp, true)
  | resp, i, row :: rows =>
    if startsHash row then inputOkAux args d resp (i + 1) rows
    else
      match splitOnChar '\t' (pyRstripNl row) with
      | c :: _f2 :: _f3 :: rest =>
        let resp1 :=
          if rest.length < 6 && !args.nostrand then
            { resp with warning := resp.warning ++ [warnMsg] }
          else resp
        if (chrLookup d c).isNone then
          match d with
          | [] => .error stopIterErr
          | (k0, _) :: _ =>
            .ok ({ resp1 with is_ok := false, error := some (mismatchMsg c k0 args.genome) }, false)
        else .ok (resp1, true)
      | _ => .ok ({ resp with is_ok := false, error := some (colErr i) }, false)

/-- Strand handling (line 124): reverse-complement when the sniffed schema
had a strand column (`sd = some strand`, i.e. `tab_len >= 6`), the strand is
`-`, and `--nostrand` was not given. -/
def orientSeq (args : Args) (sd : Option Str) (s : Str) : Str :=
  if (match sd with | some x => x == ['-'] | none => false) && !args.nostrand then revComp s
  else s

/-- Remove handling (lines 127-128): when `--remove` is set, keep
`seq[:append] + seq[-append:]`. -/
def removeSeq (args : Args) (s : Str) : Str :=
  if args.remove then pySlice s 0 args.append ++ pySlice s (-args.append) (s.length : Int)
  else s

/-- One iteration of the `compute` loop (lines 108-131) on the already
tab-split fields of a row: fixed-arity unpacking chosen by the sniffed
`tab_len`, name synthesis, coordinate adjustment, fetch, strand handling,
remove handling, FASTA formatting.  `Except.error` models the uncaught
exceptions of the loop body. -/
def processFields (args : Args) (d : ChrDict) (tab_len i : Nat) (fields : List Str) :
    Except Str Str :=
  match
    (if 6 ≤ tab_len then
      match fields with
      | c :: stF :: enF :: nm :: _sc :: sd :: _ => Except.ok (c, stF, enF, nm, some sd)
      | _ => Except.error unpackErr
     else if 4 ≤ tab_len then
      match fields with
      | c :: stF :: enF :: nm :: _ => Except.ok (c, stF, enF, nm, (none : Option Str))
      | _ => Except.error unpackErr
     else
      match fields with
      | c :: stF :: enF :: _ => Except.ok (c, stF, enF, ([] : Str), (none : Option Str))
      | _ => Except.error unpackErr) with
  | .error e => .error e
  | .ok (c, stF, enF, nm0, sd) =>
    let nm := if tab_len < 4 then "sequence_".data ++ Nat.toDigits 10 (i + 1) else nm0
    match pyIntChars stF, pyIntChars enF with
    | some s, some e =>
      match chrLookup d c with
      | none => .error (keyErr c)
      | some g =>
        let seq := pySlice g (s - args.append - 1) (e + args.append)
        let seq2 := orientSeq args sd seq
        let seq3 := removeSeq args seq2
        .ok ('>' :: nm ++ '\n' :: textwrapFill100 seq3)
    | _, _ => .error intErr

/-- One iteration of the `compute` loop on a raw row: `row.rstrip()` then
tab splitting (lines 108-113), then `processFields`. -/
def processRow (args : Args) (d : ChrDict) (tab_len i : Nat) (row : Str) : Except Str Str :=
  processFields args d tab_len i (splitOnChar '\t' (pyRstrip row))

/-- The `compute` loop over all rows (line 107 onwards): note that, unlike
`_tab_length` and `_input_ok`, it does not skip comment lines. -/
def computeRows (args : Args) (d : ChrDict) (tab_len : Nat) : Nat → List Str → Except Str (List Str)
  | _, [] => .ok []
  | i, row :: rows =>
    match processRow args d tab_len i row with
    | .error e => .error e
    | .ok r =>
      match computeRows args d tab_len (i + 1) rows with
      | .error e => .error e
      | .ok rs => .ok (r :: rs)

/-- The `compute` function (lines 84-133): split the input into rows, sniff
the column count, validate the first data row, then process every row. -/
def compute (args : Args) (d : ChrDict) : Except Str Resp :=
  let rows := pySplitlines args.input
  let tab_len := tabLength rows
  match inputOkAux args d resp0 0 rows with
  | .error e => .error e
  | .ok (resp, good) =>
    if good then
      match computeRows args d tab_len 0 rows with
      | .error e => .error e
      | .ok rs => .ok { resp with result := rs }
    else .ok resp

/-- The `write` function (lines 136-158), reduced to its only file side
effect: the records written to the output file, or `none` when no file is
created (error, or empty result). -/
def write (resp : Resp) : Option (List Str) :=
  if resp.is_ok then (if resp.result = [] then none else some resp.result) else none

/-- The `ctrl_args` check (lines 41-43): `--remove` is rejected exactly when
`args.append` is falsy, i.e. equal to 0. -/
def ctrlArgsOk (args : Args) : Bool := !(args.remove && args.append == 0)

/-- The `main` pipeline (lines 23-38) after the genome index is open:
`ctrl_args`, then `compute`, then `write`.  The result pairs the response
with the file write (if any); `Except.error` models `sys.exit` on the
configuration error as well as uncaught exceptions from `compute`. -/
def mainModel (args : Args) (d : ChrDict) : Except Str (Resp × Option (List Str)) :=
  if ctrlArgsOk args then
    match compute args d with
    | .error e => .error e
    | .ok resp => .ok (resp, write resp)
  else .error cfgErr

/-- Name of a processed row as a function of the sniffed column count, the
0-based row index, and the fields after the first three (lines 108-116). -/
def rowName (tab_len i : Nat) (rest : List Str) : Str :=
  if tab_len < 4 then "sequence_".data ++ Nat.toDigits 10 (i + 1) else rest.headD []

/-- Strand field of a processed row as seen by line 124: present exactly
when the sniffed column count is at least 6, in which case it is the sixth
field (third after chromosome/start/end). -/
def rowStrand (tab_len : Nat) (rest : List Str) : Option Str :=
  if 6 ≤ tab_len then some (rest.getD 2 []) else none

/-- The fields after chromosome/start/end are numerous enough for the
fixed-arity unpacking chosen by the sniffed column count. -/
def restShapeOk (tab_len : Nat) (rest : List Str) : Prop :=
  (6 ≤ tab_len → 3 ≤ rest.length) ∧ (4 ≤ tab_len → tab_len < 6 → 1 ≤ rest.length)

instance (tab_len : Nat) (rest : List Str) : Decidable (restShapeOk tab_len rest) := by
  unfold restShapeOk; infer_instance

/-- Boolean substring test, used to state what an error message mentions. -/
def containsSub (s pat : Str) : Bool :=
  (List.range (s.length + 1)).any (fun k => ((s.drop k).take pat.length) == pat)

/-! ### Auxiliary lemmas about the slice, fill and flank operations -/

/-- A Python slice whose bounds are non-negative, ordered and within the
sequence is exactly the half-open interval of positions it names. -/
theorem pySlice_of_range (g : Str) (a b : Int) (h0 : 0 ≤ a) (hab : a ≤ b)
    (hb : b ≤ (g.length : Int)) :
    pySlice g a b = (g.drop a.toNat).take (b.toNat - a.toNat) := by
  unfold pySlice pyIdx
  have ha' : ¬ a < 0 := by omega
  have hb' : ¬ b < 0 := by omega
  rw [if_neg hb', if_neg ha']
  have h1 : min b.toNat g.length = b.toNat := Nat.min_eq_left (by omega)
  have h2 : min a.toNat g.length = a.toNat := Nat.min_eq_left (by omega)
  rw [h1, h2, List.drop_take]

/-- The chunking helper maps the empty text to no lines, whatever the fuel. -/
theorem chunksAux_nil (w fuel : Nat) : chunksAux w fuel [] = [] := by
  cases fuel <;> rfl

/-- Filling at width 100 leaves a text of at most 100 characters
unchanged. -/
theorem textwrapFill100_of_le (s : Str) (h : s.length ≤ 100) : textwrapFill100 s = s := by
  cases s with
  | nil => rfl
  | cons c cs =>
    have h1 : (c :: cs).take 100 = c :: cs := List.take_of_length_le h
    have h2 : (c :: cs).drop 100 = [] := List.drop_of_length_le h
    unfold textwrapFill100
    show joinNl (chunksAux 100 (cs.length + 1) (c :: cs)) = c :: cs
    rw [show chunksAux 100 (cs.length + 1) (c :: cs)
          = (c :: cs).take 100 :: chunksAux 100 cs.length ((c :: cs).drop 100) from rfl,
        h1, h2, chunksAux_nil]
    rfl

/-- Strand handling never changes the length of the sequence. -/
theorem orientSeq_length (args : Args) (sd : Option Str) (s : Str) :
    (orientSeq args sd s).length = s.length := by
  unfold orientSeq
  split
  · simp [revComp]
  · rfl

/-- Remove handling is the identity when `--remove` was not requested. -/
theorem removeSeq_of_not (args : Args) (s : Str) (h : args.remove = false) :
    removeSeq args s = s := by
  simp [removeSeq, h]

/-- The slice `s[-k:]` with `0 < k ≤ |s|` is the last `k` characters. -/
theorem pySlice_neg_start (s : Str) (k : Int) (hk : 0 < k) (hkn : k.toNat ≤ s.length) :
    pySlice s (-k) (s.length : Int) = s.drop (s.length - k.toNat) := by
  unfold pySlice pyIdx
  have h3 : -k < 0 := by omega
  have h4 : ¬ (s.length : Int) < 0 := by omega
  rw [if_pos h3, if_neg h4]
  have e3 : min (s.length : Int).toNat s.length = s.length := by simp
  have e4 : ((s.length : Int) + -k).toNat = s.length - k.toNat := by omega
  rw [e3, e4, List.take_length]

/-- Remove handling on a sequence long enough keeps exactly the first
`append` characters followed by the last `append` characters. -/
theorem removeSeq_flanks (args : Args) (s : Str) (hrm : args.remove = true)
    (hk : 0 < args.append) (hlen : 2 * args.append.toNat ≤ s.length) :
    removeSeq args s = s.take args.append.toNat ++ s.drop (s.length - args.append.toNat) := by
  have hkn : args.append.toNat ≤ s.length := by omega
  have h1 : pySlice s 0 args.append = s.take args.append.toNat := by
    rw [pySlice_of_range s 0 args.append (le_refl 0) (by omega) (by omega)]
    simp
  have h2 := pySlice_neg_start s args.append hk hkn
  simp only [removeSeq, hrm, if_true, h1, h2]

/-- The two flanks of length `k` of a sequence of length at least `2 * k`
together have length exactly `2 * k`. -/
theorem flanks_length (s : Str) (k : Nat) (hlen : 2 * k ≤ s.length) :
    (s.take k ++ s.drop (s.length - k)).length = 2 * k := by
  rw [List.length_append, List.length_take, List.length_drop]
  have hks : k ≤ s.length := by omega
  rw [Nat.min_eq_left hks]
  omega

/-- Strand handling, seen through the sniffed column count: the reverse
complement is taken exactly when the schema has at least 6 columns, the
sixth field is `-`, and `--nostrand` was not given. -/
theorem orientSeq_eq_if (args : Args) (tab_len : Nat) (rest : List Str) (s : Str) :
    orientSeq args (rowStrand tab_len rest) s =
      if (decide (6 ≤ tab_len) && (rest.getD 2 [] == ['-']) && !args.nostrand) = true
      then revComp s else s := by
  unfold orientSeq rowStrand
  by_cases h6 : 6 ≤ tab_len <;> simp [h6]

/-- Inversion of one `compute` iteration on a row whose fields parse, whose
coordinates are integers, and whose chromosome is in the index: the emitted
record is the FASTA header for the schema-determined name followed by the
slice `[start - append - 1, end + append)`, strand-handled, remove-handled
and line-wrapped. -/
theorem processFields_ok (args : Args) (d : ChrDict) (tab_len i : Nat)
    (c stF enF : Str) (rest : List Str) (s e : Int) (g : Str)
    (hs : pyIntChars stF = some s) (he : pyIntChars enF = some e)
    (hg : chrLookup d c = some g) (hr : restShapeOk tab_len rest) :
    processFields args d tab_len i (c :: stF :: enF :: rest) =
      .ok ('>' :: rowName tab_len i rest ++ '\n' ::
        textwrapFill100 (removeSeq args (orientSeq args (rowStrand tab_len rest)
          (pySlice g (s - args.append - 1) (e + args.append))))) := by
  obtain ⟨hr6, hr4⟩ := hr
  by_cases h6 : 6 ≤ tab_len
  · have h3 := hr6 h6
    have h4 : ¬ tab_len < 4 := by omega
    rcases rest with _ | ⟨nm, _ | ⟨sc, _ | ⟨sd, r'⟩⟩⟩
    · simp at h3
    · simp at h3
    · simp at h3
    · simp [processFields, if_pos h6, hs, he, hg, rowName, rowStrand, if_neg h4]
  · by_cases h4 : 4 ≤ tab_len
    · have h1 := hr4 h4 (by omega)
      have h4' : ¬ tab_len < 4 := by omega
      rcases rest with _ | ⟨nm, r'⟩
      · simp at h1
      · simp [processFields, if_neg h6, if_pos h4, hs, he, hg, rowName, rowStrand, if_neg h4']
    · have h4' : tab_len < 4 := by omega
      simp [processFields, if_neg h6, if_neg h4, hs, he, hg, rowName, rowStrand, if_pos h4']

/-! ### Claims -/

/-- C2: for every data row, the slice fetched from the reference for that
row's chromosome is the half-open interval `[adj_start, adj_end)` where
`adj_start = start - append - 1` and `adj_end = end + append` (the extra
`-1` beyond BED's 0-based convention is part of the defined behaviour);
stated here for in-range adjusted coordinates, over every sniffed schema. -/
theorem C2_fetch_interval (args : Args) (d : ChrDict) (tab_len i : Nat)
    (c stF enF : Str) (rest : List Str) (s e : Int) (g : Str)
    (hs : pyIntChars stF = some s) (he : pyIntChars enF = some e)
    (hg : chrLookup d c = some g) (hr : restShapeOk tab_len rest)
    (h0 : 0 ≤ s - args.append - 1)
    (h1 : s - args.append - 1 ≤ e + args.append)
    (h2 : e + args.append ≤ (g.length : Int)) :
    processFields args d tab_len i (c :: stF :: enF :: rest) =
      .ok ('>' :: rowName tab_len i rest ++ '\n' ::
        textwrapFill100 (removeSeq args (orientSeq args (rowStrand tab_len rest)
          ((g.drop (s - args.append - 1).toNat).take
            ((e + args.append).toNat - (s - args.append - 1).toNat))))) := by
  rw [processFields_ok args d tab_len i c stF enF rest s e g hs he hg hr,
      pySlice_of_range g _ _ h0 h1 h2]

/-- C2 witness: a concrete 3-column row `c 5 7` with `append = 2` against a
12-base chromosome fetches exactly positions 2 through 8. -/
theorem C2_fetch_interval_witness :
    (pyIntChars "5".data = some 5 ∧ pyIntChars "7".data = some 7 ∧
     chrLookup [("c".data, "AACCGGTTAACC".data)] "c".data = some "AACCGGTTAACC".data ∧
     restShapeOk 3 [] ∧ (0 : Int) ≤ 5 - 2 - 1 ∧ (5 : Int) - 2 - 1 ≤ 7 + 2 ∧
     (7 : Int) + 2 ≤ (("AACCGGTTAACC".data : Str).length : Int)) ∧
    processFields { input := [], genome := [], append := 2, remove := false, nostrand := true }
      [("c".data, "AACCGGTTAACC".data)] 3 0 ["c".data, "5".data, "7".data] =
      .ok ('>' :: rowName 3 0 [] ++ '\n' ::
        textwrapFill100 (removeSeq { input := [], genome := [], append := 2, remove := false, nostrand := true }
          (orientSeq { input := [], genome := [], append := 2, remove := false, nostrand := true }
            (rowStrand 3 [])
            ((("AACCGGTTAACC".data : Str).drop ((5 : Int) - 2 - 1).toNat).take
              (((7 : Int) + 2).toNat - ((5 : Int) - 2 - 1).toNat))))) :=
  ⟨⟨by decide, by decide, by decide, by decide, by decide, by decide, by decide⟩,
   C2_fetch_interval _ _ 3 0 _ _ _ [] 5 7 _ (by decide) (by decide) (by decide)
     (by decide) (by decide) (by decide) (by decide)⟩

/-- C3 counterexample: with `remove` set (`append = 1`), a six-column row
with strand `+` emits the two flanking bases, not the fetched slice
verbatim as the claim states for every such row. -/
theorem C3_counterexample :
    processFields { input := [], genome := [], append := 1, remove := true, nostrand := false }
      [("chr1".data, "ACGTACGT".data)] 6 0
      ["chr1".data, "2".data, "4".data, "f".data, "0".data, "+".data] =
      .ok ">f\nAA".data ∧
    (">f\nAA".data : Str) ≠ ">f\nACGTA".data := by
  exact ⟨rfl, by decide⟩

/-- C3 (amended): for every row processed without `remove`, the emitted
sequence is the reverse complement of the fetched slice exactly when the
sniffed column count is at least 6, the strand field is `-`, and `nostrand`
is false; in every other case it is the fetched slice verbatim.  (When
`remove` is set, the remove-trimming applies after this orientation step.) -/
theorem C3_strand_handling (args : Args) (d : ChrDict) (tab_len i : Nat)
    (c stF enF : Str) (rest : List Str) (s e : Int) (g : Str)
    (hs : pyIntChars stF = some s) (he : pyIntChars enF = some e)
    (hg : chrLookup d c = some g) (hr : restShapeOk tab_len rest)
    (hrm : args.remove = false) :
    processFields args d tab_len i (c :: stF :: enF :: rest) =
      .ok ('>' :: rowName tab_len i rest ++ '\n' ::
        textwrapFill100
          (if (decide (6 ≤ tab_len) && (rest.getD 2 [] == ['-']) && !args.nostrand) = true
           then revComp (pySlice g (s - args.append - 1) (e + args.append))
           else pySlice g (s - args.append - 1) (e + args.append))) := by
  rw [processFields_ok args d tab_len i c stF enF rest s e g hs he hg hr,
      removeSeq_of_not args _ hrm, orientSeq_eq_if]

/-- C3 witness: a six-column row with strand `-` and `nostrand` false emits
the reverse complement of the fetched slice. -/
theorem C3_strand_handling_witness :
    (pyIntChars "3".data = some 3 ∧ pyIntChars "6".data = some 6 ∧
     chrLookup [("c1".data, "AAAACGT".data)] "c1".data = some "AAAACGT".data ∧
     restShapeOk 6 ["nm".data, "0".data, "-".data]) ∧
    processFields { input := [], genome := [], append := 0, remove := false, nostrand := false }
      [("c1".data, "AAAACGT".data)] 6 0
      ["c1".data, "3".data, "6".data, "nm".data, "0".data, "-".data] =
      .ok ('>' :: rowName 6 0 ["nm".data, "0".data, "-".data] ++ '\n' ::
        textwrapFill100
          (if (decide (6 ≤ 6) && ((["nm".data, "0".data, "-".data] : List Str).getD 2 [] == ['-']) && !false) = true
           then revComp (pySlice "AAAACGT".data ((3 : Int) - 0 - 1) ((6 : Int) + 0))
           else pySlice "AAAACGT".data ((3 : Int) - 0 - 1) ((6 : Int) + 0))) :=
  ⟨⟨by decide, by decide, by decide, by decide⟩,
   C3_strand_handling _ _ 6 0 _ _ _ _ 3 6 _ (by decide) (by decide) (by decide)
     (by decide) rfl⟩

/-- C4: when `remove` is set with `append = k > 0`, the emitted sequence is
the first `k` bases of the (possibly reverse-complemented) padded slice
concatenated with its last `k` bases, of length exactly `2 * k`, whenever
that slice has length at least `2 * k`. -/
theorem C4_remove_flanks (args : Args) (d : ChrDict) (tab_len i : Nat)
    (c stF enF : Str) (rest : List Str) (s e : Int) (g : Str)
    (hs : pyIntChars stF = some s) (he : pyIntChars enF = some e)
    (hg : chrLookup d c = some g) (hr : restShapeOk tab_len rest)
    (hrm : args.remove = true) (hk : 0 < args.append)
    (hlen : 2 * args.append.toNat ≤ (pySlice g (s - args.append - 1) (e + args.append)).length) :
    processFields args d tab_len i (c :: stF :: enF :: rest) =
      .ok ('>' :: rowName tab_len i rest ++ '\n' ::
        textwrapFill100
          ((orientSeq args (rowStrand tab_len rest)
              (pySlice g (s - args.append - 1) (e + args.append))).take args.append.toNat ++
           (orientSeq args (rowStrand tab_len rest)
              (pySlice g (s - args.append - 1) (e + args.append))).drop
             ((orientSeq args (rowStrand tab_len rest)
                (pySlice g (s - args.append - 1) (e + args.append))).length - args.append.toNat))) ∧
    ((orientSeq args (rowStrand tab_len rest)
        (pySlice g (s - args.append - 1) (e + args.append))).take args.append.toNat ++
     (orientSeq args (rowStrand tab_len rest)
        (pySlice g (s - args.append - 1) (e + args.append))).drop
       ((orientSeq args (rowStrand tab_len rest)
          (pySlice g (s - args.append - 1) (e + args.append))).length - args.append.toNat)).length =
      2 * args.append.toNat := by
  have hos : (orientSeq args (rowStrand tab_len rest)
      (pySlice g (s - args.append - 1) (e + args.append))).length =
      (pySlice g (s - args.append - 1) (e + args.append)).length :=
    orientSeq_length args _ _
  have hlen' : 2 * args.append.toNat ≤ (orientSeq args (rowStrand tab_len rest)
      (pySlice g (s - args.append - 1) (e + args.append))).length := by
    rw [hos]; exact hlen
  constructor
  · rw [processFields_ok args d tab_len i c stF enF rest s e g hs he hg hr,
        removeSeq_flanks args _ hrm hk hlen']
  · exact flanks_length _ _ hlen'

/-- C4 witness: `append = 2, remove = true` on a six-column `+` row whose
padded slice `CCGGTTAAC` has 9 bases keeps the 2 + 2 flanking bases
`CC` and `AC`, a sequence of length 4. -/
theorem C4_remove_flanks_witness :
    (0 : Int) < 2 ∧
    2 * (2 : Int).toNat ≤ (pySlice "AACCGGTTAACCGGTT".data ((5 : Int) - 2 - 1) ((9 : Int) + 2)).length ∧
    processFields { input := [], genome := [], append := 2, remove := true, nostrand := false }
      [("c1".data, "AACCGGTTAACCGGTT".data)] 6 0
      ["c1".data, "5".data, "9".data, "x".data, "0".data, "+".data] = .ok ">x\nCCAC".data ∧
    (">x\nCCAC".data : Str).length - 3 = 2 * (2 : Int).toNat := by
  refine ⟨by decide, by decide, ?_, by decide⟩
  have h := C4_remove_flanks { input := [], genome := [], append := 2, remove := true, nostrand := false }
      [("c1".data, "AACCGGTTAACCGGTT".data)] 6 0 "c1".data "5".data "9".data
      ["x".data, "0".data, "+".data] 5 9 "AACCGGTTAACCGGTT".data
      (by decide) (by decide) (by decide) (by decide) rfl (by decide) (by decide)
  rw [h.1]
  rfl

/-- C7: for every valid 3-column BED row (sniffed column count below 4),
the name emitted in the FASTA header is `sequence_` followed by the row's
1-based row number. -/
theorem C7_sequence_name (args : Args) (d : ChrDict) (tab_len i : Nat)
    (c stF enF : Str) (s e : Int) (g : Str)
    (hs : pyIntChars stF = some s) (he : pyIntChars enF = some e)
    (hg : chrLookup d c = some g) (htl : tab_len < 4) :
    ∃ tail, processFields args d tab_len i [c, stF, enF] =
      .ok ('>' :: ("sequence_".data ++ Nat.toDigits 10 (i + 1)) ++ '\n' :: tail) := by
  have hshape : restShapeOk tab_len [] := ⟨by intro h; omega, by intro h h'; omega⟩
  have h := processFields_ok args d tab_len i c stF enF [] s e g hs he hg hshape
  rw [show rowName tab_len i [] = "sequence_".data ++ Nat.toDigits 10 (i + 1) from by
        simp [rowName, htl]] at h
  exact ⟨_, h⟩

/-- C7 witness: the fifth row (0-based index 4) of a 3-column run is named
`sequence_5`. -/
theorem C7_sequence_name_witness :
    (pyIntChars "5".data = some 5 ∧ pyIntChars "7".data = some 7 ∧
     chrLookup [("cA".data, "AACCGGTTAACC".data)] "cA".data = some "AACCGGTTAACC".data ∧
     (3 : Nat) < 4) ∧
    ∃ tail, processFields { input := [], genome := [], append := 0, remove := false, nostrand := true }
      [("cA".data, "AACCGGTTAACC".data)] 3 4 ["cA".data, "5".data, "7".data] =
      .ok ('>' :: ("sequence_".data ++ Nat.toDigits 10 (4 + 1)) ++ '\n' :: tail) :=
  ⟨⟨by decide, by decide, by decide, by decide⟩,
   C7_sequence_name _ _ 3 4 _ _ _ 5 7 "AACCGGTTAACC".data
     (by decide) (by decide) (by decide) (by decide)⟩

/-- C5: for every input, running with `remove` set and `append` equal to 0
is rejected as a configuration error before any BED row is read or
processed: the result is the `ctrl_args` error for every BED content and
every genome index, and nothing is computed or written. -/
theorem C5_remove_needs_append (args : Args) (d : ChrDict)
    (hrm : args.remove = true) (ha : args.append = 0) :
    mainModel args d = .error cfgErr := by
  simp [mainModel, ctrlArgsOk, hrm, ha]

/-- C5 witness: a run over a well-formed BED row with `remove` set and
`append = 0` exits with the configuration error. -/
theorem C5_remove_needs_append_witness :
    ({ input := "chr1\t1\t2".data, genome := "g.fa".data, append := 0,
       remove := true, nostrand := false } : Args).remove = true ∧
    ({ input := "chr1\t1\t2".data, genome := "g.fa".data, append := 0,
       remove := true, nostrand := false } : Args).append = 0 ∧
    mainModel { input := "chr1\t1\t2".data, genome := "g.fa".data, append := 0,
                remove := true, nostrand := false }
      [("chr1".data, "ACGT".data)] = .error cfgErr :=
  ⟨rfl, rfl,
   C5_remove_needs_append _ [("chr1".data, "ACGT".data)] rfl rfl⟩

/-- C10: for every run where `remove` is set and `append` is negative, the
configuration check accepts the flag combination (only `append = 0` is
rejected together with `remove`), and the run proceeds to row processing
with the negative padding value. -/
theorem C10_negative_append_accepted (args : Args) (d : ChrDict)
    (hrm : args.remove = true) (ha : args.append < 0) :
    ctrlArgsOk args = true ∧
    mainModel args d = Except.map (fun r => (r, write r)) (compute args d) := by
  have hne : (args.append == 0) = false := by
    rw [beq_eq_false_iff_ne]
    omega
  have hok : ctrlArgsOk args = true := by
    simp [ctrlArgsOk, hrm, hne]
  refine ⟨hok, ?_⟩
  unfold mainModel
  rw [hok]
  simp only [if_true]
  cases compute args d <;> rfl

/-- C10 witness: `append = -2, remove = true` passes the configuration
check and row processing runs with the negative padding (the run on the row
`chr1 2 10` against an 8-base chromosome succeeds and emits a record). -/
theorem C10_negative_append_accepted_witness :
    ctrlArgsOk { input := "chr1\t2\t10".data, genome := "g.fa".data, append := -2,
                 remove := true, nostrand := false } = true ∧
    mainModel { input := "chr1\t2\t10".data, genome := "g.fa".data, append := -2,
                remove := true, nostrand := false }
      [("chr1".data, "ACGTACGT".data)] =
      Except.map (fun r => (r, write r))
        (compute { input := "chr1\t2\t10".data, genome := "g.fa".data, append := -2,
                   remove := true, nostrand := false }
          [("chr1".data, "ACGTACGT".data)]) :=
  C10_negative_append_accepted _ [("chr1".data, "ACGTACGT".data)] rfl (by decide)

/-- C8: evaluation at the failing input.  A BED input consisting of the
single comment line `#comment` crashes `compute` with an uncaught
`ValueError` (the loop at line 107 does not skip comment lines, unlike
`_tab_length` and `_input_ok`), instead of completing without error as the
claim states. -/
theorem C8_comment_only_crashes :
    compute { input := "#comment".data, genome := "g.fa".data, append := 0,
              remove := false, nostrand := false }
      [("chr1".data, "ACGT".data)] = .error unpackErr := rfl

/-- C9: evaluation at the failing input.  A standard six-column first data
row with `nostrand` false still records the strand warning, because line 68
compares `len(rest) < 6` where `rest` holds the fields after the first
three: the claim's "no warning for a six-column row" direction fails. -/
theorem C9_warning_on_six_columns :
    compute { input := "chr2\t5\t8\tgeneB\t0\t+".data, genome := "ref.fa".data, append := 0,
              remove := false, nostrand := false }
      [("chr2".data, "AAAACCCCGGGGTTTT".data)] =
      .ok { is_ok := true, result := [">geneB\nCCCC".data],
            warning := [warnMsg], error := none } := rfl

/-- C6 counterexample: when the missing chromosome is on the second data
row (the eager check of `_input_ok` looks at the first row only), the run
dies with the collaborator's raw `KeyError`, which names only the offending
chromosome and not an example reference name. -/
theorem C6_counterexample :
    mainModel { input := "chr1\t1\t5\nchr9\t1\t5".data, genome := "g.fa".data, append := 0,
                remove := false, nostrand := false }
      [("chr1".data, "ACGTACGT".data)] = .error (keyErr "chr9".data) ∧
    containsSub (keyErr "chr9".data) "chr1".data = false :=
  ⟨rfl, by decide⟩

/-- The validator loop skips leading comment lines, advancing only the line
counter. -/
theorem inputOkAux_comments (args : Args) (d : ChrDict) (resp : Resp)
    (comments rows : List Str) :
    ∀ i : Nat, (∀ r ∈ comments, startsHash r = true) →
      inputOkAux args d resp i (comments ++ rows) =
        inputOkAux args d resp (i + comments.length) rows := by
  induction comments with
  | nil => intro i _; simp
  | cons r rs ih =>
    intro i hc
    have hr : startsHash r = true := hc r (List.mem_cons_self r rs)
    have htail : ∀ x ∈ rs, startsHash x = true := fun x hx => hc x (List.mem_cons_of_mem r hx)
    rw [List.cons_append]
    simp only [inputOkAux, hr, if_true]
    rw [ih (i + 1) htail]
    congr 1
    simp
    omega

/-- C6 (amended): when the chromosome of the FIRST data row is absent from
the (non-empty) reference index, `compute` returns an error response whose
message spells out both the offending BED name and the first reference
name, and no output file is written.  (For later rows the mismatch instead
surfaces as a raw lookup failure naming only the offending chromosome — see
the counterexample.) -/
theorem C6_first_row_mismatch (args : Args) (k0 g0 : Str) (d' : ChrDict)
    (comments : List Str) (row : Str) (restRows : List Str)
    (c f2 f3 : Str) (restF : List Str)
    (hcom : ∀ r ∈ comments, startsHash r = true)
    (hrows : pySplitlines args.input = comments ++ row :: restRows)
    (hrow : startsHash row = false)
    (hfields : splitOnChar '\t' (pyRstripNl row) = c :: f2 :: f3 :: restF)
    (hmiss : chrLookup ((k0, g0) :: d') c = none) :
    ∃ resp, compute args ((k0, g0) :: d') = .ok resp ∧ resp.is_ok = false ∧
      resp.error = some (mismatchPre ++ c ++ mismatchMid ++ k0 ++ mismatchPost args.genome) ∧
      write resp = none := by
  refine ⟨{ is_ok := false, result := [],
            warning := if restF.length < 6 && !args.nostrand then [warnMsg] else [],
            error := some (mismatchMsg c k0 args.genome) }, ?_, rfl, rfl, rfl⟩
  have hstep : inputOkAux args ((k0, g0) :: d') resp0 0 (comments ++ row :: restRows) =
      .ok ({ is_ok := false, result := [],
             warning := if restF.length < 6 && !args.nostrand then [warnMsg] else [],
             error := some (mismatchMsg c k0 args.genome) }, false) := by
    rw [inputOkAux_comments args _ resp0 comments (row :: restRows) 0 hcom]
    simp only [inputOkAux, hrow, Bool.false_eq_true, if_false, hfields]
    simp only [hmiss, Option.isNone_none, if_true]
    by_cases hcond : (restF.length < 6 && !args.nostrand) = true
    · simp [hcond, resp0]
    · simp [hcond, resp0]
  simp only [compute, hrows, hstep, Bool.false_eq_true, if_false]

/-- C6 witness: a header line followed by a first data row naming `chrZ`,
against an index whose only chromosome is `chr1`, yields the structured
mismatch error spelling out both names, and no file is written. -/
theorem C6_first_row_mismatch_witness :
    (startsHash "chrZ\t1\t2".data = false ∧
     chrLookup [("chr1".data, "ACGT".data)] "chrZ".data = none) ∧
    ∃ resp, compute { input := "#h\nchrZ\t1\t2".data, genome := "gen.fa".data, append := 0,
                      remove := false, nostrand := false }
        [("chr1".data, "ACGT".data)] = .ok resp ∧ resp.is_ok = false ∧
      resp.error = some (mismatchPre ++ "chrZ".data ++ mismatchMid ++ "chr1".data ++
        mismatchPost "gen.fa".data) ∧
      write resp = none :=
  ⟨⟨by decide, by decide⟩,
   C6_first_row_mismatch { input := "#h\nchrZ\t1\t2".data, genome := "gen.fa".data, append := 0,
                           remove := false, nostrand := false }
     "chr1".data "ACGT".data [] ["#h".data] "chrZ\t1\t2".data []
     "chrZ".data "1".data "2".data []
     (by decide) (by decide) (by decide) (by decide) (by decide)⟩

/-- C1 counterexample: for the row `chr1 10 20 featureA 0 +` with
`append = 0`, the code emits the 11-base slice starting at 0-based position
9 (`TACGTACGTAC`), not the 10-base sequence at positions 10 through 19
(`ACGTACGTAC`) that the claim states. -/
theorem C1_counterexample :
    compute { input := "chr1\t10\t20\tfeatureA\t0\t+".data, genome := "genome.fa".data,
              append := 0, remove := false, nostrand := false }
      [("chr1".data, "AAAAAAAAATACGTACGTACGGGGG".data)] =
      .ok { is_ok := true, result := [">featureA\nTACGTACGTAC".data],
            warning := [warnMsg], error := none } ∧
    (">featureA\nTACGTACGTAC".data : Str) ≠ ">featureA\nACGTACGTAC".data :=
  ⟨rfl, by decide⟩

/-- C1 (amended): for the BED row `chr1 10 20 featureA 0 +` with
`append = 0` against any reference whose `chr1` has at least 20 bases, the
emitted FASTA record is `>featureA` followed by the 11-base forward slice
at 0-based positions 9 through 19 (the tool subtracts an extra 1 from the
BED start). -/
theorem C1_record (g gp : Str) (hg : 20 ≤ g.length) :
    compute { input := "chr1\t10\t20\tfeatureA\t0\t+".data, genome := gp,
              append := 0, remove := false, nostrand := false }
      [("chr1".data, g)] =
      .ok { is_ok := true,
            result := ['>' :: "featureA".data ++ '\n' :: (g.drop 9).take 11],
            warning := [warnMsg], error := none } := by
  set aC : Args := { input := "chr1\t10\t20\tfeatureA\t0\t+".data, genome := gp, append := 0, remove := false, nostrand := false } with haC
  have hlook : chrLookup [("chr1".data, g)] "chr1".data = some g := by
    simp [chrLookup]
  have hfld : processFields aC [("chr1".data, g)] 6 0 ("chr1".data :: "10".data :: "20".data :: ["featureA".data, "0".data, "+".data]) = .ok ('>' :: "featureA".data ++ '\n' :: (g.drop 9).take 11) := by
    rw [processFields_ok _ _ 6 0 _ _ _ _ 10 20 g (by decide) (by decide) hlook (by decide)]
    rw [removeSeq_of_not _ _ rfl]
    rw [show rowName 6 0 ["featureA".data, "0".data, "+".data] = "featureA".data from by
          simp [rowName]]
    rw [show orientSeq aC (rowStrand 6 ["featureA".data, "0".data, "+".data]) (pySlice g (10 - aC.append - 1) (20 + aC.append)) = pySlice g (10 - aC.append - 1) (20 + aC.append) from by
          simp [orientSeq, rowStrand]]
    rw [show (10 - aC.append - 1) = 9 from by norm_num [haC],
        show (20 + aC.append) = 20 from by norm_num [haC]]
    rw [pySlice_of_range g 9 20 (by norm_num) (by norm_num) (by exact_mod_cast hg)]
    rw [show ((20 : Int).toNat - (9 : Int).toNat) = 11 from rfl,
        show ((9 : Int).toNat) = 9 from rfl]
    rw [textwrapFill100_of_le _ (le_trans (List.length_take_le _ _) (by norm_num))]
  have hpr : processRow aC [("chr1".data, g)] 6 0 "chr1\t10\t20\tfeatureA\t0\t+".data = .ok ('>' :: "featureA".data ++ '\n' :: (g.drop 9).take 11) := by
    rw [show processRow aC [("chr1".data, g)] 6 0 "chr1\t10\t20\tfeatureA\t0\t+".data = processFields aC [("chr1".data, g)] 6 0 ("chr1".data :: "10".data :: "20".data :: ["featureA".data, "0".data, "+".data]) from rfl]
    exact hfld
  have hio : inputOkAux aC [("chr1".data, g)] resp0 0 ["chr1\t10\t20\tfeatureA\t0\t+".data] = .ok ({ is_ok := true, result := [], warning := [warnMsg], error := none }, true) := by
    simp only [inputOkAux,
      show startsHash "chr1\t10\t20\tfeatureA\t0\t+".data = false from rfl,
      Bool.false_eq_true, if_false,
      show splitOnChar '\t' (pyRstripNl "chr1\t10\t20\tfeatureA\t0\t+".data) =
        "chr1".data :: "10".data :: "20".data :: ["featureA".data, "0".data, "+".data] from rfl]
    simp only [hlook]
    simp [resp0, haC]
  have hcr : computeRows aC [("chr1".data, g)] 6 0 ["chr1\t10\t20\tfeatureA\t0\t+".data] = .ok ['>' :: "featureA".data ++ '\n' :: (g.drop 9).take 11] := by
    simp only [computeRows, hpr]
  simp only [compute,
    show aC.input = "chr1\t10\t20\tfeatureA\t0\t+".data from rfl,
    show pySplitlines "chr1\t10\t20\tfeatureA\t0\t+".data =
      ["chr1\t10\t20\tfeatureA\t0\t+".data] from rfl,
    show tabLength ["chr1\t10\t20\tfeatureA\t0\t+".data] = 6 from rfl,
    hio, hcr, if_true]

/-- C1 witness for the amended record shape: a concrete 25-base `chr1`. -/
theorem C1_record_witness :
    20 ≤ ("CCCCCCCCCGACGTACGTACTTTTT".data : Str).length ∧
    compute { input := "chr1\t10\t20\tfeatureA\t0\t+".data, genome := "ref.fa".data,
              append := 0, remove := false, nostrand := false }
      [("chr1".data, "CCCCCCCCCGACGTACGTACTTTTT".data)] =
      .ok { is_ok := true,
            result := ['>' :: "featureA".data ++ '\n' ::
              (("CCCCCCCCCGACGTACGTACTTTTT".data : Str).drop 9).take 11],
            warning := [warnMsg], error := none } :=
  ⟨by decide, C1_record "CCCCCCCCCGACGTACGTACTTTTT".data "ref.fa".data (by decide)⟩

end Bed2Seq
